import Mathlib

/-!
# Verification of the tau2-enhanced adaptive reliability middleware

Shallow embedding of the core middleware of the repository:

* `tau2_enhanced/agents/context_agent.py`  (token estimation, tiered context
  reduction, message compression, information-preservation score, statistics),
* `tau2_enhanced/agents/retry_agent.py`    (retryability predicate, error
  classification, bounded retry loop, retry statistics),
* `tau2_enhanced/agents/enhanced_agent.py` (combined pipeline and its
  combined metrics).

Modelling conventions:

* Python strings are Lean `String`s; slicing/lowercasing go through `.data`
  (lists of characters) so that everything evaluates in the kernel.
* Python `int` arithmetic is `Nat`/`Int`; Python floats (`utilization`,
  thresholds, the information-preservation score) are modelled as exact
  rationals `Rat`.  Compression levels (0.3/0.6/0.8, default 0.7) are carried
  as integer percentages; `int(len * level)` is modelled as
  `len * percent / 100` (floor).  Concrete inputs used below are chosen so
  that exact rational rounding agrees with IEEE double rounding.
* Wall-clock fields (`timestamp`, `total_duration`, `performance_impact`,
  processing times) are not modelled.  Logging calls whose keyword arguments
  bind successfully are effect-free and omitted; the two
  `log_context_reduction` calls that pass keyword arguments absent from the
  logger's signature (`retry_agent.py:206`, `enhanced_agent.py:91`) raise
  `TypeError` at call time and are modelled explicitly
  (`callLogContextReduction`).
* The downstream generation call (an external collaborator, `tau2`'s
  `LLMAgent.generate_next_message`) is modelled as an oracle
  `Nat → Except Err α` giving the outcome of the i-th downstream invocation
  of one agent turn.
* The tokenizer-backed estimator depends on the external `tiktoken` encoder;
  it is modelled parametrically in an arbitrary encoding-length function
  `enc : String → Nat`.  The character-count heuristic is fully concrete.
-/

namespace Tau2

/-- Message roles (`tau2.data_model.message`): a message is a `SystemMessage`
exactly when its role is `system`. -/
inductive Role where
  | system
  | user
  | assistant
  | tool
deriving DecidableEq, Repr

/-- One conversation message.  `content` models Python's `msg.content`
(`None` and `""` both behave as falsy and are modelled as `""`);
`tool_calls` models the list of `str(tool_call.arguments)` strings. -/
structure Message where
  role : Role
  content : String
  tool_calls : List String := []
deriving DecidableEq, Repr

/-- `isinstance(msg, SystemMessage)`. -/
def Message.isSystem (m : Message) : Bool := m.role == Role.system

/-- Build a `SystemMessage` with the given content. -/
def systemMessage (content : String) : Message :=
  { role := Role.system, content := content }

/-! ## String helpers (kernel-friendly versions of the Python string ops) -/

/-- Python `s[:n]`. -/
def strTake (s : String) (n : Nat) : String := String.mk (s.data.take n)

/-- Python `s.lower()` (ASCII case folding, which is all the source uses). -/
def strLower (s : String) : String := String.mk (s.data.map Char.toLower)

/-- Does `l` start with `p`? -/
def listStartsWith : List Char → List Char → Bool
  | _, [] => true
  | [], _ :: _ => false
  | a :: as, b :: bs => a == b && listStartsWith as bs

/-- Does `needle` occur as a contiguous run inside `hay`? -/
def listHasSub (hay needle : List Char) : Bool :=
  match hay with
  | [] => needle.isEmpty
  | _ :: t => listStartsWith hay needle || listHasSub t needle

/-- Python `needle in hay` for strings. -/
def strHasSub (hay needle : String) : Bool := listHasSub hay.data needle.data

/-- The suffix of `hay` after the first occurrence of `needle`, if any. -/
def afterSub : List Char → List Char → Option (List Char)
  | hay, needle =>
    match hay with
    | [] => if needle.isEmpty then some [] else none
    | _ :: t =>
      if listStartsWith hay needle then some (hay.drop needle.length)
      else afterSub t needle

/-- `re.search` for the pattern sublanguage used by the source: a pattern is a
list of literal fragments that were separated by `.*` in the regex; it matches
when the fragments occur in `hay` in order. -/
def fragsMatch : List Char → List (List Char) → Bool
  | _, [] => true
  | hay, f :: fs =>
    match afterSub hay f with
    | some rest => fragsMatch rest fs
    | none => false

/-- Python `str.strip()`: drop whitespace from both ends. -/
def strStrip (s : String) : String :=
  String.mk (((s.data.dropWhile Char.isWhitespace).reverse.dropWhile
      Char.isWhitespace).reverse)

/-! ## Kernel-reducible rational arithmetic

`Rat`'s `+`, `*`, `/` do not reduce inside the kernel, so the model uses
`mkRat`/`Rat.divInt`-based equivalents; the theorems `ratAdd_eq`,
`ratMul_eq` and `ratDiv_eq` below show they agree with the ordinary
operations.  A Python float value `a / b` is the exact rational
`mkRat a b`. -/

/-- Rational addition via `mkRat` (equal to `+`, see `ratAdd_eq`). -/
def ratAdd (a b : Rat) : Rat :=
  mkRat (a.num * b.den + b.num * a.den) (a.den * b.den)

/-- Rational multiplication via `mkRat` (equal to `*`, see `ratMul_eq`). -/
def ratMul (a b : Rat) : Rat := mkRat (a.num * b.num) (a.den * b.den)

/-- Rational division via `Rat.divInt` (equal to `/`, see `ratDiv_eq`). -/
def ratDiv (a b : Rat) : Rat := Rat.divInt (a.num * b.den) (a.den * b.num)

/-! ## Token estimation (`context_agent.py`, lines 142-193) -/

/-- Characters contributed by one message to `_approximate_estimate`:
content characters plus the characters of every `str(tool_call.arguments)`. -/
def messageChars (m : Message) : Nat :=
  m.content.length + (m.tool_calls.map String.length).sum

/-- `_approximate_estimate`: `int(total_chars / 4) + len(messages) * 10`. -/
def approximate_estimate (messages : List Message) : Nat :=
  (messages.map messageChars).sum / 4 + messages.length * 10

/-- Tokens contributed by one message to `_tiktoken_estimate` for an abstract
encoder `enc`: encoded content (when truthy) plus encoded tool-call argument
strings plus a fixed overhead of 10. -/
def tiktokenMessageTokens (enc : String → Nat) (m : Message) : Nat :=
  (if m.content ≠ "" then enc m.content else 0)
    + (m.tool_calls.map enc).sum + 10

/-- `_tiktoken_estimate`, parametric in the external `tiktoken` encoder. -/
def tiktoken_estimate (enc : String → Nat) (messages : List Message) : Nat :=
  (messages.map (tiktokenMessageTokens enc)).sum

/-! ## Message compression (`_compress_message_content`, lines 385-421)

`compression_level` is passed as an integer percentage (30/60/70/80 for the
source's 0.3/0.6/0.7/0.8). -/

/-- Marker appended to truncated error content. -/
def errTruncMarker : String := " [error details truncated]"

/-- Marker appended to truncated success content. -/
def okTruncMarker : String := " [operation successful, details truncated]"

/-- Marker appended to generically truncated content. -/
def genTruncMarker : String := " [content truncated]"

/-- Success/completion keywords checked by `_compress_message_content`. -/
def successKeywords : List String := ["success", "completed", "done"]

/-- `_compress_message_content(message, compression_level)`. -/
def compress_message_content (m : Message) (percent : Nat) : Message :=
  if m.content = "" then m
  else
    let target := m.content.length * percent / 100
    if m.content.length ≤ target then m
    else if strHasSub (strLower m.content) "error" then
      { m with content := strTake m.content target ++ errTruncMarker }
    else if successKeywords.any (fun k => strHasSub (strLower m.content) k) then
      { m with content := strTake m.content (target / 2) ++ okTruncMarker }
    else
      { m with content := strTake m.content target ++ genTruncMarker }

/-- `_is_verbose_message`: content longer than 1000 characters. -/
def is_verbose_message (m : Message) : Bool :=
  if m.content = "" then false else decide (1000 < m.content.length)

/-! ## Context budget manager (`context_agent.py`) -/

/-- Configuration surface of `ContextManagedLLMAgent` (constructor defaults;
`set_context_limit` / `set_reduction_thresholds` / `configure_enhanced_agent`
update these plain values). -/
structure ContextConfig where
  context_limit : Nat := 6000
  warning_threshold : Rat := mkRat 8 10
  critical_threshold : Rat := mkRat 95 100
  min_context_reserve : Nat := 500

/-- The default configuration built by `ContextManagedLLMAgent.__init__`. -/
def defaultContextConfig : ContextConfig := {}

/-- `TokenUsageStats` (`context_agent.py`, lines 40-55). -/
structure TokenUsageStats where
  current_tokens : Nat
  limit_tokens : Nat
  utilization : Rat
  warning_threshold : Rat
  critical_threshold : Rat

/-- `TokenUsageStats.is_warning`. -/
def TokenUsageStats.is_warning (s : TokenUsageStats) : Bool :=
  decide (s.warning_threshold ≤ s.utilization)

/-- `TokenUsageStats.is_critical`. -/
def TokenUsageStats.is_critical (s : TokenUsageStats) : Bool :=
  decide (s.critical_threshold ≤ s.utilization)

/-- `_analyze_token_usage`, parametric in the token estimator the agent ended
up with (`estimate_tokens`). -/
def analyze_token_usage (est : List Message → Nat) (cfg : ContextConfig)
    (messages : List Message) : TokenUsageStats :=
  let current := est messages
  { current_tokens := current
    limit_tokens := cfg.context_limit
    utilization := mkRat current cfg.context_limit
    warning_threshold := cfg.warning_threshold
    critical_threshold := cfg.critical_threshold }

/-- Synthetic summary note of `_emergency_context_reduction`. -/
def emergencySummaryMsg (droppedCount keepRecent : Nat) : Message :=
  systemMessage ("Previous conversation summary: " ++ toString droppedCount
    ++ " messages were compressed due to context limit. Recent "
    ++ toString keepRecent ++ " messages retained for immediate context.")

/-- `_emergency_context_reduction` (lines 274-305): keep system messages plus
the last (at most) 5 non-system messages compressed at level 0.3, replacing
everything older by one synthetic summary note. -/
def emergency_context_reduction (messages : List Message) : List Message :=
  let systemMessages := messages.filter Message.isSystem
  let otherMessages := messages.filter (fun m => !m.isSystem)
  let keepRecent := min 5 otherMessages.length
  let recentMessages := otherMessages.drop (otherMessages.length - keepRecent)
  let compressedMessages := recentMessages.map (compress_message_content · 30)
  if keepRecent < otherMessages.length then
    systemMessages
      ++ [emergencySummaryMsg (otherMessages.length - keepRecent) keepRecent]
      ++ compressedMessages
  else
    systemMessages ++ compressedMessages

/-- Synthetic summary note of `_moderate_context_reduction`. -/
def moderateSummaryMsg (droppedCount : Nat) : Message :=
  systemMessage ("Context optimized: " ++ toString droppedCount
    ++ " earlier messages compressed to maintain recent conversation context.")

/-- The backward sliding-window walk of `_moderate_context_reduction`
(lines 322-343).  `rev` is `reversed(other_messages)`; the budget is an `Int`
because Python's `available_tokens` can be negative.  Returns the kept
messages in original conversation order (the code `insert(0, …)`s). -/
def moderateKeep (est : List Message → Nat) :
    List Message → Int → List Message
  | [], _ => []
  | m :: rest, budget =>
    let msgTokens : Int := est [m]
    if msgTokens ≤ budget then
      moderateKeep est rest (budget - msgTokens) ++ [m]
    else if 100 < budget then
      let compressedMsg := compress_message_content m 60
      let compressedTokens : Int := est [compressedMsg]
      if compressedTokens ≤ budget then
        moderateKeep est rest (budget - compressedTokens) ++ [compressedMsg]
      else []
    else []

/-- `_moderate_context_reduction` (lines 307-355). -/
def moderate_context_reduction (est : List Message → Nat)
    (cfg : ContextConfig) (messages : List Message) : List Message :=
  let systemMessages := messages.filter Message.isSystem
  let otherMessages := messages.filter (fun m => !m.isSystem)
  let systemTokens := est systemMessages
  let availableTokens : Int :=
    (cfg.context_limit : Int) - systemTokens - cfg.min_context_reserve
  let keptMessages := moderateKeep est otherMessages.reverse availableTokens
  if keptMessages.length < otherMessages.length then
    systemMessages
      ++ [moderateSummaryMsg (otherMessages.length - keptMessages.length)]
      ++ keptMessages
  else
    systemMessages ++ keptMessages

/-- `_preventive_context_reduction` (lines 357-373): compress verbose messages
at level 0.8, keep everything else untouched. -/
def preventive_context_reduction (messages : List Message) : List Message :=
  messages.map fun m =>
    if is_verbose_message m then compress_message_content m 80 else m

/-- `_apply_light_context_reduction_for_retry` (`enhanced_agent.py`,
lines 266-285): compress verbose messages at level 0.6. -/
def apply_light_context_reduction_for_retry
    (messages : List Message) : List Message :=
  messages.map fun m =>
    if is_verbose_message m then compress_message_content m 60 else m

/-- Total truthy content length over a message list (used both by
`_calculate_information_preservation` and for the byte counts of
`_apply_context_reduction`, where `str(msg.content)` has the same length
as the content for the string-content messages modelled here). -/
def totalContentLength (messages : List Message) : Nat :=
  (messages.map (fun m => m.content.length)).sum

/-- `_calculate_information_preservation` (lines 423-452). -/
def calculate_information_preservation
    (originalMessages reducedMessages : List Message) : Rat :=
  let messagePreservation : Rat :=
    if originalMessages.length = 0 then 1
    else mkRat reducedMessages.length originalMessages.length
  let originalContentLength := totalContentLength originalMessages
  let reducedContentLength := totalContentLength reducedMessages
  let contentPreservation : Rat :=
    if 0 < originalContentLength then
      mkRat reducedContentLength originalContentLength
    else 1
  ratAdd (ratMul (mkRat 3 10) messagePreservation)
    (ratMul (mkRat 7 10) contentPreservation)

/-- `ContextReductionResult` (lines 26-37); `performance_impact` (wall clock)
is not modelled.  `messages_dropped` and `bytes_saved` are `Int` because the
Python subtractions are not a priori nonnegative. -/
structure ContextReductionResult where
  original_token_count : Nat
  reduced_token_count : Nat
  original_message_count : Nat
  reduced_message_count : Nat
  reduction_strategy : String
  information_preserved : Rat
  messages_dropped : Int
  bytes_saved : Int
deriving Repr

/-- Strategy dispatch of `_apply_context_reduction` (lines 209-221): pick the
reduced message list and strategy name from the severity tier. -/
def chooseReductionStrategy (est : List Message → Nat) (cfg : ContextConfig)
    (tokenStats : TokenUsageStats) (messages : List Message) :
    List Message × String :=
  if tokenStats.is_critical then
    (emergency_context_reduction messages, "emergency_reduction")
  else if tokenStats.is_warning then
    (moderate_context_reduction est cfg messages, "moderate_reduction")
  else
    (preventive_context_reduction messages, "preventive_reduction")

/-- `_apply_context_reduction` (lines 195-272): reduce by the chosen strategy
and record a `ContextReductionResult`.  Returns the recorded result together
with the reduced message list (the `messages` of the returned modified
state). -/
def apply_context_reduction (est : List Message → Nat) (cfg : ContextConfig)
    (tokenStats : TokenUsageStats) (messages : List Message) :
    ContextReductionResult × List Message :=
  let reducedMessages := (chooseReductionStrategy est cfg tokenStats messages).1
  let strategy := (chooseReductionStrategy est cfg tokenStats messages).2
  let originalTokens := est messages
  let reducedTokens := est reducedMessages
  let result : ContextReductionResult :=
    { original_token_count := originalTokens
      reduced_token_count := reducedTokens
      original_message_count := messages.length
      reduced_message_count := reducedMessages.length
      reduction_strategy := strategy
      information_preserved :=
        calculate_information_preservation messages reducedMessages
      messages_dropped := (messages.length : Int) - reducedMessages.length
      bytes_saved :=
        (totalContentLength messages : Int) - totalContentLength reducedMessages }
  (result, reducedMessages)

/-! ## Retry coordinator (`retry_agent.py`) -/

/-- A raised Python exception, as far as the middleware inspects it:
its runtime type name (`type(error).__name__`) and its message
(`str(error)`). -/
structure Err where
  ty : String
  msg : String
deriving DecidableEq, Repr

/-- Retryable keyword set of `_is_retryable_error` (lines 135-138). -/
def retryablePatterns : List String :=
  ["validation", "parameter", "argument", "format",
   "type", "value", "range", "choice", "required"]

/-- Known-retryable exception type names (lines 146-149). -/
def retryableTypes : List String :=
  ["ValidationError", "ValueError", "TypeError",
   "KeyError", "AttributeError"]

/-- `_is_retryable_error` (lines 121-151). -/
def is_retryable_error (e : Err) : Bool :=
  let errorMessage := strLower e.msg
  retryablePatterns.any (fun p => strHasSub errorMessage p)
    || retryableTypes.any (fun t => t == e.ty)

/-- `self.error_patterns` (lines 73-102).  Each regex is represented by its
literal fragments (the pieces separated by `.*`); matching is `fragsMatch`.
First matching category wins, in insertion order. -/
def error_patterns : List (String × List (List String)) :=
  [ ("type_mismatch",
      [["expected ", " got "], ["invalid type", "expected"],
       ["type", "not supported"]]),
    ("missing_parameter",
      [["missing required parameter"], ["required argument", "missing"],
       ["missing", "required"]]),
    ("invalid_format",
      [["invalid format"], ["format error"], ["malformed", "format"],
       ["incorrect format"]]),
    ("value_out_of_range",
      [["out of range"], ["invalid value"], ["value", "not allowed"],
       ["exceeds", "limit"]]),
    ("enum_violation",
      [["not in allowed values"], ["invalid choice"], ["must be one of"],
       ["unknown", "option"]]) ]

/-- `_get_strategy_for_error_type` (lines 295-313). -/
def get_strategy_for_error_type (errorType : String) : String :=
  if errorType == "type_mismatch" then "type_correction"
  else if errorType == "missing_parameter" then "parameter_completion"
  else if errorType == "invalid_format" then "format_correction"
  else if errorType == "value_out_of_range" then "value_adjustment"
  else if errorType == "enum_violation" then "enum_correction"
  else "generic_simplification"

/-- `_determine_recovery_strategy` (lines 274-293). -/
def determine_recovery_strategy (e : Err) : String :=
  let errorMessage := (strLower e.msg).data
  match error_patterns.find?
      (fun cat => cat.2.any fun frags =>
        fragsMatch errorMessage (frags.map String.data)) with
  | some cat => get_strategy_for_error_type cat.1
  | none => "generic_simplification"

/-- The raw guidance template body of `_create_retry_guidance_message`
(lines 390-451) for a strategy; unknown strategies fall back to the
`generic_simplification` template.  Leading/trailing newlines of the Python
triple-quoted strings are included; the caller strips them. -/
def guidanceTemplate (strategy : String) (attempt : Nat) (errorMsg : String) :
    String :=
  let hdr := "\nAttempt " ++ toString attempt ++ "/3 - "
  if strategy == "parameter_completion" then
    hdr ++ "Parameter Error Recovery:\n"
      ++ "The previous tool call failed due to missing required parameters: "
      ++ errorMsg ++ "\n\nRecovery guidance:\n"
      ++ "1. Identify all required parameters for the tool\n"
      ++ "2. Ensure all required parameters are provided with valid values\n"
      ++ "3. Double-check parameter names for typos\n"
      ++ "4. Use simpler parameter values if complex ones are failing\n"
  else if strategy == "type_correction" then
    hdr ++ "Type Error Recovery:\n"
      ++ "The previous tool call failed due to incorrect parameter types: "
      ++ errorMsg ++ "\n\nRecovery guidance:\n"
      ++ "1. Check the expected data types for all parameters\n"
      ++ "2. Convert string numbers to integers/floats where needed\n"
      ++ "3. Ensure boolean values are true/false, not strings\n"
      ++ "4. Use proper list/dict formats for complex parameters\n"
  else if strategy == "format_correction" then
    hdr ++ "Format Error Recovery:\n"
      ++ "The previous tool call failed due to incorrect parameter format: "
      ++ errorMsg ++ "\n\nRecovery guidance:\n"
      ++ "1. Check the expected format for parameters (e.g., date formats, email formats)\n"
      ++ "2. Use standard formats (ISO dates, valid email addresses)\n"
      ++ "3. Ensure string parameters don\x27t contain invalid characters\n"
      ++ "4. Verify list and dict parameter structures\n"
  else if strategy == "value_adjustment" then
    hdr ++ "Value Error Recovery:\n"
      ++ "The previous tool call failed due to invalid parameter values: "
      ++ errorMsg ++ "\n\nRecovery guidance:\n"
      ++ "1. Use values within the valid range or set\n"
      ++ "2. Check minimum/maximum limits for numeric parameters\n"
      ++ "3. Use reasonable default values for optional parameters\n"
      ++ "4. Avoid extreme or edge-case values\n"
  else if strategy == "enum_correction" then
    hdr ++ "Choice Error Recovery:\n"
      ++ "The previous tool call failed due to invalid parameter choices: "
      ++ errorMsg ++ "\n\nRecovery guidance:\n"
      ++ "1. Use only the allowed values for choice parameters\n"
      ++ "2. Check for exact spelling and case sensitivity\n"
      ++ "3. Review the available options carefully\n"
      ++ "4. Use the most appropriate choice from the valid set\n"
  else
    hdr ++ "Generic Error Recovery:\n"
      ++ "The previous tool call failed: " ++ errorMsg
      ++ "\n\nRecovery guidance:\n"
      ++ "1. Simplify the tool call by removing optional parameters\n"
      ++ "2. Use basic, safe values for all parameters\n"
      ++ "3. Double-check all parameter names and values\n"
      ++ "4. Try a more conservative approach to the task\n"

/-- `_create_retry_guidance_message` (lines 376-458): a `SystemMessage` whose
content is the stripped guidance template. -/
def create_retry_guidance_message (e : Err) (strategy : String)
    (attempt : Nat) : Message :=
  systemMessage (strStrip (guidanceTemplate strategy attempt e.msg))

/-! ### The broken `log_context_reduction` calls

`ExecutionLogger.log_context_reduction` (`execution_logger.py`,
lines 255-262) accepts only the keyword parameters below.  Two call sites
pass keyword arguments that do not exist in that signature
(`reduction_strategy`, `information_preserved`, `performance_impact`):
`retry_agent.py:206-212` (inside the retry loop's try block, before the
downstream call at line 215) and `enhanced_agent.py:91-97` (right after
context reduction, outside any try).  Python's call binding therefore
raises `TypeError` at both sites; this is modelled explicitly.  The other
logging calls in the middleware (`context_agent.py:107` and `:259`, the
`log_tool_execution` calls) bind their keywords successfully and are
effect-free, so they are omitted from the model. -/

/-- The keyword parameters of `ExecutionLogger.log_context_reduction`
(`execution_logger.py`, lines 255-262). -/
def logContextReductionParams : List String :=
  ["original_tokens", "reduced_tokens", "strategy_used", "trigger_reason",
   "warnings", "context_type"]

/-- Python keyword binding for a `log_context_reduction` call: an unexpected
keyword raises `TypeError` naming the first offending keyword; otherwise the
call succeeds (the event logging itself is effect-free for the middleware).
The exact message text varies across Python versions; only the exception
type is load-bearing. -/
def callLogContextReduction (kwargs : List String) : Except Err Unit :=
  match kwargs.find? (fun k => !(logContextReductionParams.contains k)) with
  | some bad =>
    let m := "log_context_reduction() got an unexpected keyword argument \x27"
      ++ bad ++ "\x27"
    .error { ty := "TypeError", msg := m }
  | none => .ok ()

/-- The keyword names passed at `retry_agent.py:206-212` and
`enhanced_agent.py:91-97`; `reduction_strategy`, `information_preserved` and
`performance_impact` are not parameters of `log_context_reduction`. -/
def badLogKwargs : List String :=
  ["original_tokens", "reduced_tokens", "reduction_strategy",
   "information_preserved", "performance_impact"]

/-- The `TypeError` both broken logging calls raise. -/
def log_context_reduction_TypeError : Err :=
  { ty := "TypeError"
    msg := "log_context_reduction() got an unexpected keyword argument \x27reduction_strategy\x27" }

/-- `RetryAttempt` (lines 20-29); `timestamp` (wall clock) and
`tool_args_modified` (always `{}` in the source) are not modelled. -/
structure RetryAttempt where
  attempt_number : Nat
  error_type : String
  error_message : String
  recovery_strategy : String
  success : Bool
deriving DecidableEq, Repr

/-- `RetrySequence` (lines 32-40); `original_args` (always `{}`) and
`total_duration` (wall clock) are not modelled. -/
structure RetrySequence where
  tool_name : String
  attempts : List RetryAttempt
  final_success : Bool
  recovery_strategies_used : List String
deriving DecidableEq, Repr

/-- Outcome of one retry handler invocation: the Python return/raise value
(`.ok none` models the implicit `return None` when `max_retries = 0`),
the `RetrySequence` appended to `self.retry_sequences` (if any), and the
number of downstream calls made. -/
structure RetryHandlerOut (α : Type) where
  result : Except Err (Option α)
  seqAppended : Option RetrySequence
  downstreamCalls : Nat
deriving Repr

/-- The loop body of `_handle_retry_scenario` (lines 176-272).  `remaining`
is the number of loop iterations left, `attemptIdx` the 0-based Python loop
variable, `currentError` the rolling `original_error`.  The try block runs,
in order: strategy selection, state modification, guidance construction,
then the `log_context_reduction` call of line 206 — whose keyword arguments
are invalid, so it raises `TypeError` *before* the downstream call of
line 215.  `ora i` is the outcome the downstream call would produce for
iteration `i`; it is consulted only if the logging call succeeds (in the
source it never does, so retries make no downstream calls and every
iteration fails with the `TypeError`).  One `except` handler receives the
try block's exception, whatever raised it. -/
def retryLoop (ora : Nat → Except Err α) (messages : List Message) :
    Nat → Nat → Err → RetrySequence → RetryHandlerOut α
  | 0, _, _, _ =>
    -- `for attempt in range(0)` falls through: implicit `return None`,
    -- nothing appended to the history.
    ⟨.ok none, none, 0⟩
  | remaining + 1, attemptIdx, currentError, seq =>
    let strategy := determine_recovery_strategy currentError
    let seq := { seq with
      recovery_strategies_used := seq.recovery_strategies_used ++ [strategy] }
    -- `_apply_recovery_strategy` deep-copies the state and every
    -- per-strategy handler returns it unchanged; then the guidance
    -- message is appended.
    let _modifiedMessages :=
      messages ++ [create_retry_guidance_message currentError strategy (attemptIdx + 1)]
    let attemptRec : RetryAttempt :=
      { attempt_number := attemptIdx + 1
        error_type := currentError.ty
        error_message := currentError.msg
        recovery_strategy := strategy
        success := false }
    -- Try-block outcome and number of downstream calls actually made:
    -- line 206 raises before line 215 ever runs.
    let tryOutcome : Except Err α × Nat :=
      match callLogContextReduction badLogKwargs with
      | .error eLog => (.error eLog, 0)
      | .ok _ =>
        match ora attemptIdx with
        | .ok r => (.ok r, 1)
        | .error e => (.error e, 1)
    match tryOutcome with
    | (.ok r, nCalls) =>
      let seq := { seq with
        attempts := seq.attempts ++ [{ attemptRec with success := true }]
        final_success := true }
      ⟨.ok (some r), some seq, nCalls⟩
    | (.error e, nCalls) =>
      -- lines 242-243: the attempt record's error fields are overwritten
      -- with the caught exception before the record is appended.
      let seq := { seq with
        attempts := seq.attempts
          ++ [{ attemptRec with error_type := e.ty, error_message := e.msg }] }
      if remaining = 0 then
        -- Final attempt: line 258's `log_tool_execution` call binds its
        -- keywords successfully, then line 272 re-raises the caught error.
        ⟨.error e, some { seq with final_success := false }, nCalls⟩
      else
        let rest := retryLoop ora messages remaining (attemptIdx + 1) e seq
        ⟨rest.result, rest.seqAppended, rest.downstreamCalls + nCalls⟩

/-- `_handle_retry_scenario` (lines 153-272). -/
def handle_retry_scenario (maxRetries : Nat) (ora : Nat → Except Err α)
    (messages : List Message) (originalError : Err) : RetryHandlerOut α :=
  retryLoop ora messages maxRetries 0 originalError
    { tool_name := "unknown"
      attempts := []
      final_success := false
      recovery_strategies_used := [] }

/-- `RetryManagedLLMAgent.generate_next_message` (lines 104-119):
the first downstream call is `ora 0`; retry-loop iteration `i` calls
`ora (i + 1)`.  Returns the outcome, the updated retry history, and the
total number of downstream calls. -/
def retry_generate_next_message (maxRetries : Nat) (ora : Nat → Except Err α)
    (history : List RetrySequence) (messages : List Message) :
    Except Err (Option α) × List RetrySequence × Nat :=
  match ora 0 with
  | .ok r => (.ok (some r), history, 1)
  | .error e =>
    if is_retryable_error e then
      let out := handle_retry_scenario maxRetries (fun i => ora (i + 1))
        messages e
      (out.result, history ++ out.seqAppended.toList, 1 + out.downstreamCalls)
    else
      (.error e, history, 1)

/-! ## Combined pipeline (`enhanced_agent.py`) -/

/-- `EnhancedPerformanceMetrics` (lines 20-42); the wall-clock fields
(`total_context_processing_time`, `total_retry_processing_time`,
`net_performance_improvement`) are not modelled. -/
structure EnhancedPerformanceMetrics where
  context_reductions : Nat := 0
  total_tokens_saved : Int := 0
  average_information_preservation : Rat := 0
  retry_sequences : Nat := 0
  successful_retries : Nat := 0
  retry_success_rate : Rat := 0
  total_operations : Nat := 0
  operations_with_context_reduction : Nat := 0
  operations_with_retry : Nat := 0
  operations_with_both : Nat := 0
deriving Repr

/-- `_determine_enhanced_recovery_strategy` (lines 227-251). -/
def determine_enhanced_recovery_strategy (est : List Message → Nat)
    (cfg : ContextConfig) (e : Err) (stateMessages : List Message) : String :=
  let baseStrategy := determine_recovery_strategy e
  let currentTokens := est stateMessages
  let tokenPressure : Rat := mkRat currentTokens cfg.context_limit
  if mkRat 8 10 < tokenPressure then
    if baseStrategy == "parameter_completion" then "minimal_parameter_completion"
    else if baseStrategy == "type_correction" then "simple_type_correction"
    else if baseStrategy == "format_correction" then "basic_format_correction"
    else if baseStrategy == "value_adjustment" then "conservative_value_adjustment"
    else if baseStrategy == "enum_correction" then "direct_enum_correction"
    else "ultra_minimal_guidance"
  else baseStrategy

/-- `_apply_enhanced_recovery_strategy` (lines 253-264): the base recovery
handlers leave the state unchanged, then a light reduction is applied when
the state exceeds the context limit. -/
def apply_enhanced_recovery_strategy (est : List Message → Nat)
    (cfg : ContextConfig) (stateMessages : List Message) : List Message :=
  if cfg.context_limit < est stateMessages then
    apply_light_context_reduction_for_retry stateMessages
  else stateMessages

/-- `_create_enhanced_retry_guidance_message` (lines 287-304) with
`context_was_reduced = True` (the only way the source calls it). -/
def create_enhanced_retry_guidance_message (e : Err) (strategy : String)
    (attempt : Nat) : Message :=
  let base := create_retry_guidance_message e strategy attempt
  systemMessage (strStrip (base.content
    ++ "\n\nNOTE: Context has been optimized to focus on recent conversation. If you need\ninformation from earlier in the conversation, use available tools to retrieve\ncurrent state information rather than relying on conversation history.\n"))

/-- Outcome of `_handle_enhanced_retry_scenario`: result, appended sequence,
message lists passed to the downstream generation calls (in order), and how
often `combined_metrics.successful_retries` was incremented inside the
handler (line 203). -/
structure EnhancedRetryOut (α : Type) where
  result : Except Err (Option α)
  seqAppended : Option RetrySequence
  callInputs : List (List Message)
  successfulRetriesInc : Nat
deriving Repr

/-- The loop body of `_handle_enhanced_retry_scenario` (lines 154-225).
`stateMessages` is the (already reduced) state the handler was entered with;
each iteration starts again from it, as the source does. -/
def enhancedRetryLoop (est : List Message → Nat) (cfg : ContextConfig)
    (ora : Nat → Except Err α) (stateMessages : List Message) :
    Nat → Nat → Err → RetrySequence → EnhancedRetryOut α
  | 0, _, _, _ => ⟨.ok none, none, [], 0⟩
  | remaining + 1, attemptIdx, currentError, seq =>
    let strategy :=
      determine_enhanced_recovery_strategy est cfg currentError stateMessages
    let seq := { seq with
      recovery_strategies_used := seq.recovery_strategies_used ++ [strategy] }
    let modified0 := apply_enhanced_recovery_strategy est cfg stateMessages
    let guidance :=
      create_enhanced_retry_guidance_message currentError strategy (attemptIdx + 1)
    let modified1 := modified0 ++ [guidance]
    let totalTokens := est modified1
    let modified2 :=
      if mkRat (cfg.context_limit * 9) 10 < mkRat totalTokens 1 then
        apply_light_context_reduction_for_retry modified1
      else modified1
    let attemptRec : RetryAttempt :=
      { attempt_number := attemptIdx + 1
        error_type := currentError.ty
        error_message := currentError.msg
        recovery_strategy := strategy
        success := false }
    match ora attemptIdx with
    | .ok r =>
      let seq := { seq with
        attempts := seq.attempts ++ [{ attemptRec with success := true }]
        final_success := true }
      ⟨.ok (some r), some seq, [modified2], 1⟩
    | .error e =>
      let seq := { seq with
        attempts := seq.attempts
          ++ [{ attemptRec with error_type := e.ty, error_message := e.msg }] }
      if remaining = 0 then
        ⟨.error e, some { seq with final_success := false }, [modified2], 0⟩
      else
        let rest := enhancedRetryLoop est cfg ora stateMessages remaining
          (attemptIdx + 1) e seq
        ⟨rest.result, rest.seqAppended, modified2 :: rest.callInputs,
          rest.successfulRetriesInc⟩

/-- `_handle_enhanced_retry_scenario` (lines 136-225). -/
def handle_enhanced_retry_scenario (est : List Message → Nat)
    (cfg : ContextConfig) (maxRetries : Nat) (ora : Nat → Except Err α)
    (stateMessages : List Message) (originalError : Err) :
    EnhancedRetryOut α :=
  enhancedRetryLoop est cfg ora stateMessages maxRetries 0 originalError
    { tool_name := "enhanced_operation"
      attempts := []
      final_success := false
      recovery_strategies_used := [] }

/-- `_update_combined_metrics` (lines 306-340). -/
def update_combined_metrics (m : EnhancedPerformanceMetrics)
    (contextReduced retryUsed : Bool)
    (reductionHistory : List ContextReductionResult)
    (retryHistory : List RetrySequence) : EnhancedPerformanceMetrics :=
  let m : EnhancedPerformanceMetrics :=
    { m with total_operations := m.total_operations + 1 }
  let m : EnhancedPerformanceMetrics :=
    if contextReduced && retryUsed then
      { m with operations_with_both := m.operations_with_both + 1 }
    else m
  let m : EnhancedPerformanceMetrics :=
    if contextReduced then
      match reductionHistory.getLast? with
      | some latest =>
        { m with
          context_reductions := m.context_reductions + 1
          total_tokens_saved := m.total_tokens_saved
            + ((latest.original_token_count : Int) - latest.reduced_token_count) }
      | none => m
    else m
  let m : EnhancedPerformanceMetrics :=
    if retryUsed then
      let m : EnhancedPerformanceMetrics :=
        { m with retry_sequences := m.retry_sequences + 1 }
      match retryHistory.getLast? with
      | some s =>
        if s.final_success then
          { m with successful_retries := m.successful_retries + 1 }
        else m
      | none => m
    else m
  let m : EnhancedPerformanceMetrics :=
    if 0 < m.retry_sequences then
      { m with retry_success_rate :=
          mkRat m.successful_retries m.retry_sequences }
    else m
  let m : EnhancedPerformanceMetrics :=
    if reductionHistory.length ≠ 0 then
      let totalPreservation :=
        (reductionHistory.map (fun r => r.information_preserved)).foldl
          ratAdd (mkRat 0 1)
      { m with average_information_preservation :=
          ratDiv totalPreservation (mkRat reductionHistory.length 1) }
    else m
  m

/-- Result of one `EnhancedLLMAgent.generate_next_message` turn. -/
structure EnhancedTurnOut (α : Type) where
  result : Except Err (Option α)
  metrics : EnhancedPerformanceMetrics
  reductionHistory : List ContextReductionResult
  retryHistory : List RetrySequence
  /-- The message lists handed to the downstream generation calls, in
  chronological order; the head is the input of the first attempt. -/
  callInputs : List (List Message)
  contextReduced : Bool
  retryUsed : Bool
deriving Repr

/-- `EnhancedLLMAgent.generate_next_message` (lines 71-124), one agent turn.
`ora 0` is the first downstream generation call; enhanced-retry iteration `i`
calls `ora (i + 1)`.  Whenever reduction fires, the `log_context_reduction`
call of line 91 (invalid keyword arguments, outside any try) raises
`TypeError` right after the reduction bookkeeping, so the turn aborts before
the first generation attempt, the retry phase and the metrics update.  When
the retry handler re-raises, the exception propagates before
`_update_combined_metrics` runs (step 3 is skipped). -/
def enhanced_generate_next_message (est : List Message → Nat)
    (cfg : ContextConfig) (maxRetries : Nat) (ora : Nat → Except Err α)
    (m0 : EnhancedPerformanceMetrics)
    (reductionHistory0 : List ContextReductionResult)
    (retryHistory0 : List RetrySequence) (messages : List Message) :
    EnhancedTurnOut α :=
  let tokenStats := analyze_token_usage est cfg messages
  let doReduce :=
    tokenStats.is_warning || decide (cfg.context_limit < tokenStats.current_tokens)
  let (messages1, reductionHistory1, m1, contextReduced) :=
    if doReduce then
      let (rec, reduced) := apply_context_reduction est cfg tokenStats messages
      (reduced, reductionHistory0 ++ [rec],
        { m0 with operations_with_context_reduction :=
            m0.operations_with_context_reduction + 1 }, true)
    else (messages, reductionHistory0, m0, false)
  match (if contextReduced then callLogContextReduction badLogKwargs
      else .ok ()) with
  | .error eLog =>
    -- enhanced_agent.py:91: the TypeError escapes generate_next_message;
    -- the reduction record and counter update above have already happened.
    ⟨.error eLog, m1, reductionHistory1, retryHistory0, [], contextReduced,
      false⟩
  | .ok _ =>
  match ora 0 with
  | .ok r =>
    let m2 := update_combined_metrics m1 contextReduced false
      reductionHistory1 retryHistory0
    ⟨.ok (some r), m2, reductionHistory1, retryHistory0, [messages1],
      contextReduced, false⟩
  | .error e =>
    if is_retryable_error e then
      let m1 := { m1 with
        operations_with_retry := m1.operations_with_retry + 1 }
      let lo := handle_enhanced_retry_scenario est cfg maxRetries
        (fun i => ora (i + 1)) messages1 e
      let retryHistory1 := retryHistory0 ++ lo.seqAppended.toList
      let m2 := { m1 with
        successful_retries := m1.successful_retries + lo.successfulRetriesInc }
      match lo.result with
      | .ok r =>
        let m3 := update_combined_metrics m2 contextReduced true
          reductionHistory1 retryHistory1
        ⟨.ok r, m3, reductionHistory1, retryHistory1,
          messages1 :: lo.callInputs, contextReduced, true⟩
      | .error e2 =>
        ⟨.error e2, m2, reductionHistory1, retryHistory1,
          messages1 :: lo.callInputs, contextReduced, true⟩
    else
      ⟨.error e, m1, reductionHistory1, retryHistory0, [messages1],
        contextReduced, false⟩

/-! ## Metrics export (`get_context_statistics`, `get_retry_statistics`)

The Python functions return nested dictionaries; they are modelled with a
small value type `PyVal`.  Division is modelled as a fallible operation
(`safeDiv`) so that an unguarded division by zero would surface as an
`Except.error`, exactly like Python's `ZeroDivisionError`. -/

/-- A Python value appearing in the statistics dictionaries.  All Python
numbers (int and float) are carried as `Rat`. -/
inductive PyVal where
  | num (q : Rat)
  | str (s : String)
  | dict (entries : List (String × PyVal))
  | list (xs : List PyVal)

/-- Division that errors out on a zero denominator, as Python would. -/
def safeDiv (a b : Rat) : Except String Rat :=
  if b = 0 then .error "ZeroDivisionError" else .ok (a / b)

/-- Insert-or-update into an insertion-ordered association list (Python
dict semantics). -/
def updateAssoc (l : List (String × β)) (k : String) (f : β → β) (dflt : β) :
    List (String × β) :=
  match l with
  | [] => [(k, f dflt)]
  | (k', v) :: rest =>
    if k' == k then (k', f v) :: rest
    else (k', v) :: updateAssoc rest k f dflt

/-- First-occurrence deduplication, modelling `list(set(...))` up to the
(unspecified) ordering of a Python set. -/
def dedup : List String → List String
  | [] => []
  | x :: xs => if xs.contains x then dedup xs else x :: dedup xs

/-- Per-strategy accumulator of `get_context_statistics` (lines 481-495). -/
structure StrategyUsageAcc where
  count : Nat := 0
  sumTokenSavings : Int := 0
  sumInformationPreservation : Rat := 0

/-- `get_context_statistics` (`context_agent.py`, lines 454-512).
`total_processing_time` sums `performance_impact` (unmodelled wall clock)
and is therefore modelled as 0 in the non-empty branch. -/
def get_context_statistics (history : List ContextReductionResult) :
    Except String PyVal :=
  if history.isEmpty then
    .ok (.dict
      [("total_reductions", .num 0),
       ("average_token_savings", .num 0),
       ("average_information_preservation", .num 0),
       ("total_processing_time", .num 0),
       ("strategy_usage", .dict [])])
  else do
    let tokenSavings : List Int := history.map
      (fun r => (r.original_token_count : Int) - r.reduced_token_count)
    let avgTokenSavings ← safeDiv ((tokenSavings.map (fun i : Int => (i : Rat))).sum)
      (tokenSavings.length : Rat)
    let informationScores := history.map (·.information_preserved)
    let avgInformationPreservation ← safeDiv informationScores.sum
      (informationScores.length : Rat)
    let usage : List (String × StrategyUsageAcc) :=
      history.foldl (fun acc r =>
        updateAssoc acc r.reduction_strategy
          (fun s => { s with
            count := s.count + 1
            sumTokenSavings := s.sumTokenSavings
              + ((r.original_token_count : Int) - r.reduced_token_count)
            sumInformationPreservation :=
              s.sumInformationPreservation + r.information_preserved })
          {}) []
    let strategyUsage ← usage.mapM (fun s => do
      if 0 < s.2.count then
        let avgSav ← safeDiv (s.2.sumTokenSavings : Rat) (s.2.count : Rat)
        let avgPres ← safeDiv s.2.sumInformationPreservation (s.2.count : Rat)
        pure (s.1, PyVal.dict
          [("count", .num (s.2.count : Rat)),
           ("average_token_savings", .num avgSav),
           ("average_information_preservation", .num avgPres)])
      else
        pure (s.1, PyVal.dict
          [("count", .num (s.2.count : Rat)),
           ("average_token_savings", .num (s.2.sumTokenSavings : Rat)),
           ("average_information_preservation",
             .num s.2.sumInformationPreservation)]))
    .ok (.dict
      [("total_reductions", .num (history.length : Rat)),
       ("average_token_savings", .num avgTokenSavings),
       ("average_information_preservation", .num avgInformationPreservation),
       ("total_processing_time", .num 0),
       ("strategy_usage", .dict strategyUsage),
       ("max_token_savings",
         .num (match tokenSavings with
           | [] => (0 : Rat)
           | h :: t => ((t.foldl max h : Int) : Rat))),
       ("total_messages_dropped",
         .num (((history.map (fun r => r.messages_dropped)).sum : Int) : Rat)),
       ("total_bytes_saved",
         .num (((history.map (fun r => r.bytes_saved)).sum : Int) : Rat))])

/-- `get_retry_statistics` (`retry_agent.py`, lines 460-510).
`total_time_spent` sums `total_duration` (unmodelled wall clock) and is
therefore modelled as 0 in the non-empty branch. -/
def get_retry_statistics (sequences : List RetrySequence) :
    Except String PyVal :=
  if sequences.isEmpty then
    .ok (.dict
      [("total_retry_sequences", .num 0),
       ("success_rate", .num 0),
       ("average_attempts", .num 0),
       ("total_time_spent", .num 0),
       ("strategy_effectiveness", .dict [])])
  else do
    let successfulSequences := sequences.filter (·.final_success)
    let totalAttempts := (sequences.map (·.attempts.length)).sum
    let successRate ← safeDiv (successfulSequences.length : Rat)
      (sequences.length : Rat)
    let averageAttempts ← safeDiv (totalAttempts : Rat)
      (sequences.length : Rat)
    let strategyStats : List (String × (Nat × Nat)) :=
      sequences.foldl (fun acc seq =>
        seq.recovery_strategies_used.foldl (fun acc strategy =>
          updateAssoc acc strategy
            (fun s => (s.1 + 1, if seq.final_success then s.2 + 1 else s.2))
            (0, 0)) acc) []
    let strategyEffectiveness := strategyStats.map (fun s =>
      let effectiveness : Rat :=
        if 0 < s.2.1 then (s.2.2 : Rat) / (s.2.1 : Rat) else 0
      (s.1, PyVal.dict
        [("success_rate", .num effectiveness),
         ("times_used", .num (s.2.1 : Rat)),
         ("successful_recoveries", .num (s.2.2 : Rat))]))
    .ok (.dict
      [("total_retry_sequences", .num (sequences.length : Rat)),
       ("successful_sequences", .num (successfulSequences.length : Rat)),
       ("success_rate", .num successRate),
       ("average_attempts", .num averageAttempts),
       ("total_time_spent", .num 0),
       ("strategy_effectiveness", .dict strategyEffectiveness),
       ("error_types_encountered", .list
         ((dedup ((sequences.map (fun seq =>
           seq.attempts.map (·.error_type))).flatten)).map PyVal.str))])

/-! ## Spec-side definitions

The following definitions are written from the specification's wording (not
from the source) and are compared against the source-side definitions above
by the refinement theorems below. -/

/-- Spec-side (claim C8, as stated): compression truncates the content to
`floor(length × compression_level)` characters in *every* branch and appends
the contextual marker; content that already fits is returned unchanged. -/
def compress_content_claimC8 (m : Message) (percent : Nat) : Message :=
  if m.content = "" then m
  else
    let target := m.content.length * percent / 100
    if m.content.length ≤ target then m
    else
      let marker :=
        if strHasSub (strLower m.content) "error" then errTruncMarker
        else if successKeywords.any (fun k => strHasSub (strLower m.content) k) then
          okTruncMarker
        else genTruncMarker
      { m with content := strTake m.content target ++ marker }

/-- Spec-side (claim C8, amended): pick the truncation length and marker
together — the success/completion branch truncates to half the target. -/
def truncationPlan (content : String) (target : Nat) : Nat × String :=
  if strHasSub (strLower content) "error" then (target, errTruncMarker)
  else if successKeywords.any (fun k => strHasSub (strLower content) k) then
    (target / 2, okTruncMarker)
  else (target, genTruncMarker)

/-- Spec-side (claim C8, amended): compression by truncation plan. -/
def compress_content_amended (m : Message) (percent : Nat) : Message :=
  if m.content = "" then m
  else
    let target := m.content.length * percent / 100
    if m.content.length ≤ target then m
    else
      let plan := truncationPlan m.content target
      { m with content := strTake m.content plan.1 ++ plan.2 }

/-- Spec-side (claim C7): an error is retryable iff its message contains one
of the fixed keywords or its runtime type is in the known-retryable set. -/
def RetryableSpec (e : Err) : Prop :=
  (∃ p ∈ retryablePatterns, strHasSub (strLower e.msg) p = true)
    ∨ e.ty ∈ retryableTypes

/-- Spec-side (claim C5): state of the backward sliding-window walk. -/
structure ModerateWalkState where
  stopped : Bool
  budget : Int
  kept : List Message

/-- Spec-side (claim C5, amended): one step of the walk over the non-system
messages, most recent first.  A message is kept whole while it fits the
remaining budget; if it does not fit and more than 100 tokens of budget
remain, its compressed version is kept when that fits; otherwise the walk
stops and everything older is dropped. -/
def moderateWalkStep (est : List Message → Nat) (st : ModerateWalkState)
    (m : Message) : ModerateWalkState :=
  if st.stopped then st
  else
    let t : Int := est [m]
    if t ≤ st.budget then
      { st with budget := st.budget - t, kept := m :: st.kept }
    else if 100 < st.budget then
      let cm := compress_message_content m 60
      let ct : Int := est [cm]
      if ct ≤ st.budget then
        { st with budget := st.budget - ct, kept := cm :: st.kept }
      else { st with stopped := true }
    else { st with stopped := true }

/-- Spec-side (claim C5, amended): the messages kept by the walk, obtained
as a fold over the reversed non-system messages. -/
def moderateKeepFold (est : List Message → Nat) (rev : List Message)
    (budget : Int) : List Message :=
  (rev.foldl (moderateWalkStep est) ⟨false, budget, []⟩).kept

/-- Spec-side (claim C5, as stated): the walk *without* the 100-token floor —
whenever a message does not fit whole, its shrunk version is kept if only
the shrunk version fits. -/
def moderateKeepClaimC5 (est : List Message → Nat) :
    List Message → Int → List Message
  | [], _ => []
  | m :: rest, budget =>
    let t : Int := est [m]
    if t ≤ budget then moderateKeepClaimC5 est rest (budget - t) ++ [m]
    else
      let cm := compress_message_content m 60
      let ct : Int := est [cm]
      if ct ≤ budget then moderateKeepClaimC5 est rest (budget - ct) ++ [cm]
      else []

/-- Spec-side (claim C5, as stated): moderate reduction retains all system
messages, keeps every non-system message that still fits the remaining
budget working backward (compressing when only the shrunk version fits),
and prepends a synthetic system note when anything was dropped. -/
def moderate_reduction_claimC5 (est : List Message → Nat)
    (cfg : ContextConfig) (messages : List Message) : List Message :=
  let systemMessages := messages.filter Message.isSystem
  let otherMessages := messages.filter (fun m => !m.isSystem)
  let availableTokens : Int :=
    (cfg.context_limit : Int) - est systemMessages - cfg.min_context_reserve
  let keptMessages := moderateKeepClaimC5 est otherMessages.reverse availableTokens
  if keptMessages.length < otherMessages.length then
    systemMessages
      ++ [moderateSummaryMsg (otherMessages.length - keptMessages.length)]
      ++ keptMessages
  else
    systemMessages ++ keptMessages

/-! ## Concrete inputs used by witnesses and counterexamples -/

/-- A non-retryable error: no keyword occurs in the message and the type is
not in the known-retryable set. -/
def errNonRetryable : Err := { ty := "RuntimeError", msg := "disk failure xz" }

/-- A retryable `ValueError`. -/
def errValue : Err := { ty := "ValueError", msg := "invalid value for field" }

/-- A retryable `TypeError` matching the `type_mismatch` patterns. -/
def errType : Err := { ty := "TypeError", msg := "expected int got str" }

/-- Oracle whose downstream call always raises the retryable `errValue`
(used for claim C1: the retry loop never reaches it anyway). -/
def oraValueFail : Nat → Except Err Nat := fun _ => .error errValue

/-- Oracle that always fails with `errType`. -/
def oraFailType : Nat → Except Err Nat := fun _ => .error errType

/-- Oracle that always fails with the non-retryable error. -/
def oraNonRetryable : Nat → Except Err Nat := fun _ => .error errNonRetryable

/-- Fallback sequence for destructuring an optional history entry. -/
def emptyRetrySequence : RetrySequence :=
  { tool_name := "", attempts := [], final_success := false,
    recovery_strategies_used := [] }

/-- The retry sequence recorded by a 2-attempt exhausted plain retry run. -/
def seqC4 : RetrySequence :=
  match (handle_retry_scenario 2 oraFailType [] errType).seqAppended with
  | some s => s
  | none => emptyRetrySequence

/-- The retry sequence recorded by the exhausted run of claim C1's failing
input: a retryable `ValueError` followed by three retry iterations, each of
which raises the logging `TypeError` before any downstream call. -/
def seqC1bug : RetrySequence :=
  match (handle_retry_scenario 3 (fun i => oraValueFail (i + 1)) []
      errValue).seqAppended with
  | some s => s
  | none => emptyRetrySequence

/-- A conversation that is critical under the default configuration:
570 empty system messages (5700 tokens of per-message overhead) plus one
short `"error"` user message; `5711 / 6000 ≥ 0.95`.  Emergency reduction
compresses the short error message into a *longer* one (truncation marker),
so the reduced token count exceeds the original. -/
def criticalMsgsEx : List Message :=
  List.replicate 570 (systemMessage "")
    ++ [{ role := Role.user, content := "error" }]

/-- A 400-character message content. -/
def manyA : String := String.mk (List.replicate 400 'a')

/-- An empty (10-overhead-token) user message. -/
def emptyUserMsg : Message := { role := Role.user, content := "" }

/-- Conversation for claim C5: one 400-character message followed by 541
empty messages.  Walking backward, the empties consume all but 90 budget
tokens; the big message does not fit whole, its compressed version (75
tokens) would fit, but the ≤100 budget floor makes the source stop and drop
it. -/
def msgsC5 : List Message :=
  { role := Role.user, content := manyA } :: List.replicate 541 emptyUserMsg

/-- A success-keyword message of 30 characters for claim C8. -/
def msgC8 : Message :=
  { role := Role.user, content := "done ssssssssssssssssssssssssss" }

/-- Small configuration for the combined-pipeline runs of claim C3
(set through `configure_enhanced_agent`). -/
def cfgC3 : ContextConfig :=
  { context_limit := 100, warning_threshold := mkRat 8 10,
    critical_threshold := mkRat 95 100, min_context_reserve := 20 }

/-- Conversation that is critical under `cfgC3`: three 90-character user
messages estimate to 97 tokens against the 100-token limit. -/
def msgsC3 : List Message :=
  List.replicate 3 { role := Role.user, content := String.mk (List.replicate 90 'b') }

/-- Oracle for claim C3's failing input: the downstream call, were it ever
reached, would raise the retryable `errValue`. -/
def oraC3bad : Nat → Except Err Nat := fun _ => .error errValue

/-- Single-system-message conversation for the C5 witness. -/
def msgsC5w : List Message := [systemMessage "hi"]

/-! # Theorems -/

/-! ## Helper lemmas -/

theorem ratAdd_eq (a b : Rat) : ratAdd a b = a + b :=
  (Rat.add_def' a b).symm

theorem ratMul_eq (a b : Rat) : ratMul a b = a * b := by
  rw [Rat.mul_def, Rat.normalize_eq_mkRat]; rfl

theorem ratDiv_eq (a b : Rat) : ratDiv a b = a / b :=
  (Rat.div_def' a b).symm

theorem callLog_badLogKwargs_eq :
    callLogContextReduction badLogKwargs
      = .error log_context_reduction_TypeError := rfl

theorem length_filter_partition (p : α → Bool) (l : List α) :
    (l.filter p).length + (l.filter (fun m => !p m)).length = l.length := by
  induction l with
  | nil => rfl
  | cons a t ih =>
    by_cases h : p a <;> simp [List.filter, h] <;> omega

theorem moderateKeep_length_le (est : List Message → Nat) :
    ∀ (rev : List Message) (budget : Int),
      (moderateKeep est rev budget).length ≤ rev.length := by
  intro rev
  induction rev with
  | nil => intro budget; simp [moderateKeep]
  | cons m rest ih =>
    intro budget
    simp only [moderateKeep]
    split
    · simpa using Nat.add_le_add_right (ih _) 1
    · split
      · split
        · simpa using Nat.add_le_add_right (ih _) 1
        · simp
      · simp

theorem emergency_length_le (messages : List Message) :
    (emergency_context_reduction messages).length ≤ messages.length := by
  unfold emergency_context_reduction
  have hpart := length_filter_partition Message.isSystem messages
  set sys := messages.filter Message.isSystem with hsys
  set others := messages.filter (fun m => !m.isSystem) with hothers
  have hmin : min 5 others.length ≤ others.length := Nat.min_le_right _ _
  have hdrop : (others.drop (others.length - min 5 others.length)).length
      = min 5 others.length := by
    rw [List.length_drop]; omega
  dsimp only
  split
  · simp only [List.length_append, List.length_cons, List.length_map,
      List.length_nil, hdrop]
    omega
  · simp only [List.length_append, List.length_map, hdrop]
    omega

theorem moderate_length_le (est : List Message → Nat) (cfg : ContextConfig)
    (messages : List Message) :
    (moderate_context_reduction est cfg messages).length ≤ messages.length := by
  unfold moderate_context_reduction
  have hpart := length_filter_partition Message.isSystem messages
  set sys := messages.filter Message.isSystem with hsys
  set others := messages.filter (fun m => !m.isSystem) with hothers
  have hkeep := moderateKeep_length_le est others.reverse
    ((cfg.context_limit : Int) - est sys - cfg.min_context_reserve)
  rw [List.length_reverse] at hkeep
  dsimp only
  split
  · simp only [List.length_append, List.length_singleton]
    omega
  · simp only [List.length_append]
    omega

theorem preventive_length (messages : List Message) :
    (preventive_context_reduction messages).length = messages.length := by
  unfold preventive_context_reduction
  simp

theorem chooseReduction_length_le (est : List Message → Nat)
    (cfg : ContextConfig) (stats : TokenUsageStats) (messages : List Message) :
    (chooseReductionStrategy est cfg stats messages).1.length
      ≤ messages.length := by
  unfold chooseReductionStrategy
  split
  · exact emergency_length_le messages
  · split
    · exact moderate_length_le est cfg messages
    · exact (preventive_length messages).le

/-! ## Claim C6: token estimation is nonnegative and monotone -/

/-- Claim C6: for every message list `M` and message `m`, the estimate is
nonnegative and `estimate (M ++ [m]) ≥ estimate M`, both for the
character-count heuristic `_approximate_estimate` and for
`_tiktoken_estimate` with an arbitrary tokenizer `enc`.  Both estimators are
pure Lean functions of their input by construction. -/
theorem claim_C6 (enc : String → Nat) (M : List Message) (m : Message) :
    0 ≤ approximate_estimate M
      ∧ approximate_estimate M ≤ approximate_estimate (M ++ [m])
      ∧ 0 ≤ tiktoken_estimate enc M
      ∧ tiktoken_estimate enc M ≤ tiktoken_estimate enc (M ++ [m]) := by
  refine ⟨Nat.zero_le _, ?_, Nat.zero_le _, ?_⟩
  · unfold approximate_estimate
    simp only [List.map_append, List.sum_append, List.length_append,
      List.map_cons, List.map_nil, List.sum_cons, List.sum_nil,
      List.length_cons, List.length_nil]
    have h := Nat.div_le_div_right (c := 4)
      (Nat.le_add_right (M.map messageChars).sum (messageChars m + 0))
    omega
  · unfold tiktoken_estimate
    simp only [List.map_append, List.sum_append]
    exact Nat.le_add_right _ _

/-! ## Claim C10: statistics of an empty history -/

/-- Claim C10: with no recorded reductions and no recorded retry sequences,
`get_context_statistics` and `get_retry_statistics` return dictionaries of
zero-valued aggregates through their guarded empty-history branches, without
reaching any division (divisions are modelled as the fallible `safeDiv`, so
an unguarded empty-case division would surface as `.error`). -/
theorem claim_C10 :
    get_context_statistics [] = .ok (.dict
      [("total_reductions", .num 0),
       ("average_token_savings", .num 0),
       ("average_information_preservation", .num 0),
       ("total_processing_time", .num 0),
       ("strategy_usage", .dict [])])
    ∧ get_retry_statistics [] = .ok (.dict
      [("total_retry_sequences", .num 0),
       ("success_rate", .num 0),
       ("average_attempts", .num 0),
       ("total_time_spent", .num 0),
       ("strategy_effectiveness", .dict [])]) :=
  ⟨rfl, rfl⟩

/-! ## Claim C2: reduction never grows the message or token counts -/

/-- Claim C2 (amended): for every context reduction pass, the recorded
`ContextReductionResult` satisfies
`reduced_message_count ≤ original_message_count`.  The token-count half of
the original claim is false (see the counterexample): compression appends
truncation-marker text, which can make the reduced sequence estimate
slightly larger than the original. -/
theorem claim_C2_amended (est : List Message → Nat) (cfg : ContextConfig)
    (stats : TokenUsageStats) (messages : List Message) :
    (apply_context_reduction est cfg stats messages).1.reduced_message_count
      ≤ (apply_context_reduction est cfg stats messages).1.original_message_count := by
  have h := chooseReduction_length_le est cfg stats messages
  simpa [apply_context_reduction] using h

set_option maxRecDepth 40000 in
/-- Claim C2 counterexample: under the default configuration, a conversation
of 570 empty system messages plus one short `"error"` user message is
critical (5711 estimated tokens, utilization ≥ 0.95); emergency reduction
compresses the 5-character error message into a 27-character one (the
truncation marker), so the recorded pass has
`reduced_token_count = 5716 > 5711 = original_token_count`. -/
theorem claim_C2_counterexample :
    (analyze_token_usage approximate_estimate defaultContextConfig
        criticalMsgsEx).is_warning = true
      ∧ (apply_context_reduction approximate_estimate defaultContextConfig
          (analyze_token_usage approximate_estimate defaultContextConfig
            criticalMsgsEx) criticalMsgsEx).1.original_token_count
        < (apply_context_reduction approximate_estimate defaultContextConfig
            (analyze_token_usage approximate_estimate defaultContextConfig
              criticalMsgsEx) criticalMsgsEx).1.reduced_token_count := by
  constructor
  · decide
  · decide

/-! ## Claim C8: the compression algorithm -/

/-- Claim C8 (amended): compression returns the message unchanged when the
content fits `floor(length × level)`, and otherwise truncates and appends
the contextual marker, where the error branch truncates to the target, the
success/completion branch truncates to *half* the target (`target // 2` in
the source, not the full target the claim states), and the generic branch
truncates to the target. -/
theorem claim_C8_amended (m : Message) (percent : Nat) :
    compress_message_content m percent = compress_content_amended m percent := by
  unfold compress_message_content compress_content_amended truncationPlan
  dsimp only
  split_ifs <;> rfl

/-- Claim C8 counterexample: for a 30-character content containing the
success keyword `"done"` at compression level 0.7, the source truncates to
`21 / 2 = 10` characters, not to the claimed `floor(30 × 0.7) = 21`. -/
theorem claim_C8_counterexample :
    compress_message_content msgC8 70 ≠ compress_content_claimC8 msgC8 70 := by
  decide

/-! ## Claim C9: the information-preservation score -/

/-- Claim C9 (amended): the information-preservation score is the weighted
blend `0.3 × message ratio + 0.7 × content ratio` (with a ratio of 1 when
the corresponding original quantity is zero), and it lies in `[0, 1]`
*provided* the reduction does not increase the message count or the total
content length.  (Without that proviso the original claim is false: see the
counterexample, where marker text increases the content length.) -/
theorem claim_C9_amended (orig red : List Message)
    (hm : red.length ≤ orig.length)
    (hc : totalContentLength red ≤ totalContentLength orig) :
    0 ≤ calculate_information_preservation orig red
      ∧ calculate_information_preservation orig red ≤ 1 := by
  have hdiv : ∀ a b : Nat, a ≤ b →
      (0 : Rat) ≤ (a : Rat) / (b : Rat) ∧ (a : Rat) / (b : Rat) ≤ 1 := by
    intro a b hab
    rcases Nat.eq_zero_or_pos b with hb | hb
    · have ha : a = 0 := Nat.le_zero.mp (hb ▸ hab)
      subst ha; subst hb; norm_num
    · have hb' : (0 : Rat) < (b : Rat) := by exact_mod_cast hb
      exact ⟨div_nonneg (Nat.cast_nonneg a) hb'.le,
        (div_le_one hb').mpr (by exact_mod_cast hab)⟩
  have hval : calculate_information_preservation orig red
      = 3 / 10 * (if orig.length = 0 then (1 : Rat)
            else (red.length : Rat) / (orig.length : Rat))
        + 7 / 10 * (if 0 < totalContentLength orig then
            (totalContentLength red : Rat) / (totalContentLength orig : Rat)
          else 1) := by
    simp only [calculate_information_preservation, ratAdd_eq, ratMul_eq,
      Rat.mkRat_eq_div, Int.cast_natCast]
    norm_num
  have hmp : (0 : Rat) ≤ (if orig.length = 0 then (1 : Rat)
        else (red.length : Rat) / (orig.length : Rat))
      ∧ (if orig.length = 0 then (1 : Rat)
        else (red.length : Rat) / (orig.length : Rat)) ≤ 1 := by
    split_ifs
    · norm_num
    · exact hdiv _ _ hm
  have hcp : (0 : Rat) ≤ (if 0 < totalContentLength orig then
        (totalContentLength red : Rat) / (totalContentLength orig : Rat)
      else 1)
      ∧ (if 0 < totalContentLength orig then
        (totalContentLength red : Rat) / (totalContentLength orig : Rat)
      else 1) ≤ 1 := by
    split_ifs
    · exact hdiv _ _ hc
    · norm_num
  rw [hval]
  constructor
  · have h1 := hmp.1
    have h2 := hcp.1
    nlinarith [hmp.1, hcp.1]
  · nlinarith [hmp.1, hmp.2, hcp.1, hcp.2]

/-- Claim C9 witness: applying the amended theorem to a one-message
conversation reduced to the empty conversation; the score is within
`[0, 1]`. -/
theorem claim_C9_witness :
    0 ≤ calculate_information_preservation
        [{ role := Role.user, content := "abcd" }] []
      ∧ calculate_information_preservation
        [{ role := Role.user, content := "abcd" }] [] ≤ 1 :=
  claim_C9_amended [{ role := Role.user, content := "abcd" }] []
    (by decide) (by decide)

set_option maxRecDepth 40000 in
/-- Claim C9 counterexample: the reduction pass recorded for the critical
conversation of `claim_C2_counterexample` has an information-preservation
score of `102/25 = 4.08 > 1`: the emergency compression *lengthened* the
only non-system content, so the content ratio is `27/5`. -/
theorem claim_C9_counterexample :
    1 < ((apply_context_reduction approximate_estimate defaultContextConfig
        (analyze_token_usage approximate_estimate defaultContextConfig
          criticalMsgsEx) criticalMsgsEx).1).information_preserved := by
  decide

/-! ## Claim C7: the retryability predicate and the non-retryable path -/

/-- Claim C7: an error is retryable iff its (lowercased) message contains
one of the fixed keywords or its runtime type is in the known-retryable set;
and a non-retryable first failure is re-raised unchanged by
`generate_next_message` after exactly one downstream call, leaving the retry
history untouched (no `RetrySequence` record, no retry attempt consumed). -/
theorem claim_C7 :
    (∀ e : Err, is_retryable_error e = true ↔ RetryableSpec e)
    ∧ (∀ (α : Type) (maxRetries : Nat) (ora : Nat → Except Err α)
        (history : List RetrySequence) (messages : List Message) (e : Err),
        ora 0 = .error e → is_retryable_error e = false →
        retry_generate_next_message maxRetries ora history messages
          = (.error e, history, 1)) := by
  constructor
  · intro e
    unfold is_retryable_error RetryableSpec
    simp only [Bool.or_eq_true, List.any_eq_true, beq_iff_eq]
    constructor
    · rintro (⟨p, hp, hsub⟩ | ⟨t, ht, hty⟩)
      · exact Or.inl ⟨p, hp, hsub⟩
      · exact Or.inr (hty ▸ ht)
    · rintro (⟨p, hp, hsub⟩ | hty)
      · exact Or.inl ⟨p, hp, hsub⟩
      · exact Or.inr ⟨e.ty, hty, rfl⟩
  · intro α maxRetries ora history messages e hora hre
    unfold retry_generate_next_message
    rw [hora]
    simp [hre]

/-- Claim C7 witness: a `RuntimeError` with message `"disk failure xz"`
(no keyword, type not in the retryable set) is re-raised unchanged after a
single downstream call, with the history untouched. -/
theorem claim_C7_witness :
    retry_generate_next_message 3 oraNonRetryable [] []
      = (.error errNonRetryable, ([] : List RetrySequence), 1) :=
  claim_C7.2 Nat 3 oraNonRetryable [] [] errNonRetryable rfl (by decide)

/-! ## Claim C4: retry sequences are bounded and consistent -/

theorem retryLoop_seqAppended_spec {α : Type} (ora : Nat → Except Err α)
    (messages : List Message) :
    ∀ (remaining attemptIdx : Nat) (e : Err) (seq s : RetrySequence),
      (retryLoop ora messages remaining attemptIdx e seq).seqAppended = some s →
      s.attempts.length ≤ seq.attempts.length + remaining
        ∧ (s.final_success = true →
            ∃ a, s.attempts.getLast? = some a ∧ a.success = true) := by
  intro remaining
  induction remaining with
  | zero =>
    intro i e seq s h
    simp [retryLoop] at h
  | succ n ih =>
    intro i e seq s h
    by_cases hn : n = 0
    · subst hn
      simp only [retryLoop, callLog_badLogKwargs_eq, eq_self_iff_true,
        if_true, Option.some.injEq] at h
      subst h
      constructor
      · simp only [List.length_append, List.length_cons, List.length_nil]
        omega
      · intro hfs
        simp at hfs
    · simp only [retryLoop, callLog_badLogKwargs_eq, if_neg hn] at h
      have hrec := ih (i + 1) log_context_reduction_TypeError _ s h
      refine ⟨?_, hrec.2⟩
      have h1 := hrec.1
      simp only [List.length_append, List.length_cons, List.length_nil] at h1
      omega

theorem enhancedRetryLoop_seqAppended_spec {α : Type}
    (est : List Message → Nat) (cfg : ContextConfig)
    (ora : Nat → Except Err α) (stateMessages : List Message) :
    ∀ (remaining attemptIdx : Nat) (e : Err) (seq s : RetrySequence),
      (enhancedRetryLoop est cfg ora stateMessages remaining attemptIdx e
        seq).seqAppended = some s →
      s.attempts.length ≤ seq.attempts.length + remaining
        ∧ (s.final_success = true →
            ∃ a, s.attempts.getLast? = some a ∧ a.success = true) := by
  intro remaining
  induction remaining with
  | zero =>
    intro i e seq s h
    simp [enhancedRetryLoop] at h
  | succ n ih =>
    intro i e seq s h
    cases hora : ora i with
    | ok r =>
      simp only [enhancedRetryLoop, hora, Option.some.injEq] at h
      subst h
      constructor
      · simp only [List.length_append, List.length_cons, List.length_nil]
        omega
      · intro _
        exact ⟨_, List.getLast?_concat _, rfl⟩
    | error e2 =>
      by_cases hn : n = 0
      · subst hn
        simp only [enhancedRetryLoop, hora, eq_self_iff_true, if_true,
          Option.some.injEq] at h
        subst h
        constructor
        · simp only [List.length_append, List.length_cons, List.length_nil]
          omega
        · intro hfs
          simp at hfs
      · simp only [enhancedRetryLoop, hora, if_neg hn] at h
        have hrec := ih (i + 1) e2 _ s h
        refine ⟨?_, hrec.2⟩
        have h1 := hrec.1
        simp only [List.length_append, List.length_cons, List.length_nil] at h1
        omega

/-- Claim C4: every `RetrySequence` appended to the retry history — by the
plain retry handler or by the enhanced one — contains at most `max_retries`
attempts, and when its `final_success` flag is true its last attempt's
`success` flag is true. -/
theorem claim_C4 :
    (∀ (α : Type) (maxRetries : Nat) (ora : Nat → Except Err α)
      (messages : List Message) (e0 : Err) (s : RetrySequence),
      (handle_retry_scenario maxRetries ora messages e0).seqAppended = some s →
      s.attempts.length ≤ maxRetries
        ∧ (s.final_success = true →
            ∃ a, s.attempts.getLast? = some a ∧ a.success = true))
    ∧ (∀ (α : Type) (est : List Message → Nat) (cfg : ContextConfig)
      (maxRetries : Nat) (ora : Nat → Except Err α)
      (messages : List Message) (e0 : Err) (s : RetrySequence),
      (handle_enhanced_retry_scenario est cfg maxRetries ora messages
        e0).seqAppended = some s →
      s.attempts.length ≤ maxRetries
        ∧ (s.final_success = true →
            ∃ a, s.attempts.getLast? = some a ∧ a.success = true)) := by
  constructor
  · intro α maxRetries ora messages e0 s h
    have := retryLoop_seqAppended_spec ora messages maxRetries 0 e0 _ s h
    simpa using this
  · intro α est cfg maxRetries ora messages e0 s h
    have := enhancedRetryLoop_seqAppended_spec est cfg ora messages
      maxRetries 0 e0 _ s h
    simpa using this

/-- Claim C4 witness: the sequence recorded by a 2-attempt exhausted plain
retry run has at most 2 attempts, and its `final_success`/last-attempt
consistency holds. -/
theorem claim_C4_witness :
    seqC4.attempts.length ≤ 2
      ∧ (seqC4.final_success = true →
          ∃ a, seqC4.attempts.getLast? = some a ∧ a.success = true) :=
  claim_C4.1 Nat 2 oraFailType [] errType seqC4 rfl

/-! ## Claim C1: what is re-raised after exhaustion -/

/-- Claim C1 (code bug): the claim states the intended design — after a
retryable failure exhausts all `max_retries` attempts, the closed
`RetrySequence` has `final_success = false` and the original exception type
is re-raised.  The code closes the sequence as claimed, but every retry
iteration raises `TypeError` at `retry_agent.py:206`
(`log_context_reduction` called with keyword arguments missing from its
signature) *before* the downstream call of line 215, so retries never
re-invoke the downstream call and, after exhaustion, that `TypeError` is
re-raised — not the original `ValueError`.  This theorem evaluates the
model at the failing input: a retryable `ValueError` on the first
downstream call, `max_retries = 3`; the turn makes exactly one downstream
call, records three `TypeError` attempts, closes the sequence with
`final_success = false`, and propagates the `TypeError`. -/
theorem claim_C1_code_bug :
    is_retryable_error errValue = true
      ∧ oraValueFail 0 = .error errValue
      ∧ (retry_generate_next_message 3 oraValueFail [] []).1
          = .error log_context_reduction_TypeError
      ∧ log_context_reduction_TypeError.ty ≠ errValue.ty
      ∧ (retry_generate_next_message 3 oraValueFail [] []).2.2 = 1
      ∧ (retry_generate_next_message 3 oraValueFail [] []).2.1 = [seqC1bug]
      ∧ seqC1bug.final_success = false
      ∧ seqC1bug.attempts.length = 3
      ∧ ∀ a ∈ seqC1bug.attempts, a.error_type = "TypeError" :=
  ⟨by decide, rfl, rfl, by decide, rfl, rfl, by decide, by decide, by decide⟩

/-! ## Claim C5: moderate (warning-tier) reduction -/

theorem foldl_walkStep_stopped (est : List Message → Nat) (budget : Int)
    (kept : List Message) :
    ∀ l : List Message,
      l.foldl (moderateWalkStep est) ⟨true, budget, kept⟩
        = ⟨true, budget, kept⟩ := by
  intro l
  induction l with
  | nil => rfl
  | cons m t ih => simpa [moderateWalkStep] using ih

theorem moderateKeep_eq_fold (est : List Message → Nat) :
    ∀ (rev : List Message) (budget : Int) (acc : List Message),
      (rev.foldl (moderateWalkStep est) ⟨false, budget, acc⟩).kept
        = moderateKeep est rev budget ++ acc := by
  intro rev
  induction rev with
  | nil => intro b acc; simp [moderateKeep]
  | cons m rest ih =>
    intro b acc
    by_cases h1 : (est [m] : Int) ≤ b
    · simp only [List.foldl, moderateKeep, moderateWalkStep, h1,
        Bool.false_eq_true, if_false, if_true, if_pos]
      rw [ih]
      simp [List.append_assoc]
    · by_cases h2 : (100 : Int) < b
      · by_cases h3 : (est [compress_message_content m 60] : Int) ≤ b
        · simp only [List.foldl, moderateKeep, moderateWalkStep, h1, h2, h3,
            Bool.false_eq_true, if_false, if_true, if_pos, if_neg]
          rw [ih]
          simp [List.append_assoc]
        · simp only [List.foldl, moderateKeep, moderateWalkStep, h1, h2, h3,
            Bool.false_eq_true, if_false, if_true, if_pos, if_neg]
          rw [foldl_walkStep_stopped]
          simp
      · simp only [List.foldl, moderateKeep, moderateWalkStep, h1, h2,
          Bool.false_eq_true, if_false, if_neg]
        rw [foldl_walkStep_stopped]
        simp

/-- Claim C5 (amended): moderate reduction retains all system messages and
equals: system messages, then (when anything was dropped) a synthetic system
note stating how many messages were dropped, then the kept suffix computed
by the backward walk — which keeps a whole message while it fits the
remaining budget, tries the compressed version only while *more than 100
tokens of budget remain*, and stops (dropping that message and everything
older) otherwise.  The original claim lacks the 100-token floor: a message
whose shrunk version fits can still be dropped (see the counterexample). -/
theorem claim_C5_amended (est : List Message → Nat) (cfg : ContextConfig)
    (messages : List Message) :
    (moderate_context_reduction est cfg messages
      = (let sys := messages.filter Message.isSystem
         let others := messages.filter (fun m => !m.isSystem)
         let kept := moderateKeepFold est others.reverse
           ((cfg.context_limit : Int) - est sys - cfg.min_context_reserve)
         if kept.length < others.length then
           sys ++ [moderateSummaryMsg (others.length - kept.length)] ++ kept
         else sys ++ kept))
    ∧ ∀ m ∈ messages, m.isSystem = true →
        m ∈ moderate_context_reduction est cfg messages := by
  have hkept : ∀ (rev : List Message) (b : Int),
      moderateKeepFold est rev b = moderateKeep est rev b := by
    intro rev b
    unfold moderateKeepFold
    rw [moderateKeep_eq_fold, List.append_nil]
  constructor
  · unfold moderate_context_reduction
    dsimp only
    rw [hkept]
  · intro m hm hsys
    unfold moderate_context_reduction
    dsimp only
    split
    · exact List.mem_append_left _
        (List.mem_append_left _ (List.mem_filter.mpr ⟨hm, hsys⟩))
    · exact List.mem_append_left _ (List.mem_filter.mpr ⟨hm, hsys⟩)

/-- Claim C5 witness: a system message survives moderate reduction. -/
theorem claim_C5_witness :
    systemMessage "hi" ∈ moderate_context_reduction approximate_estimate
      defaultContextConfig msgsC5w :=
  (claim_C5_amended approximate_estimate defaultContextConfig msgsC5w).2
    (systemMessage "hi") (by decide) (by decide)

set_option maxRecDepth 40000 in
/-- Claim C5 counterexample: on `msgsC5` (one 400-character message followed
by 541 empty messages, default configuration) the source's moderate
reduction differs from the claim's semantics: when the walk reaches the big
message only 90 budget tokens remain, its compressed version (75 tokens)
would fit — the claim keeps it, but the source's `token_budget > 100` guard
drops it and prepends the summary note instead. -/
theorem claim_C5_counterexample :
    moderate_context_reduction approximate_estimate defaultContextConfig
        msgsC5
      ≠ moderate_reduction_claimC5 approximate_estimate defaultContextConfig
        msgsC5 := by
  decide

/-! ## Claim C3: combined pipeline ordering and `operations_with_both` -/

set_option maxRecDepth 40000 in
/-- Claim C3 (code bug): the claim states the intended design — an
above-critical turn whose downstream call raises a retryable failure
reduces context before the first generation attempt and increments
`operations_with_both` exactly once.  In the code, whenever reduction
fires, the `log_context_reduction` call at `enhanced_agent.py:91` (invalid
keyword arguments, outside any try) raises `TypeError` right after the
reduction bookkeeping, so the turn aborts before any generation attempt,
retry phase or metrics update.  This theorem evaluates the model at the
failing input: a critical conversation under `cfgC3` and a downstream call
that would raise a retryable `ValueError`; the reduction is applied and
recorded, no downstream call is ever made, the `TypeError` escapes, and
`operations_with_both` stays 0. -/
theorem claim_C3_code_bug :
    (analyze_token_usage approximate_estimate cfgC3 msgsC3).is_critical = true
      ∧ is_retryable_error errValue = true
      ∧ oraC3bad 0 = .error errValue
      ∧ (enhanced_generate_next_message approximate_estimate cfgC3 3 oraC3bad
          {} [] [] msgsC3).contextReduced = true
      ∧ (enhanced_generate_next_message approximate_estimate cfgC3 3 oraC3bad
          {} [] [] msgsC3).result = .error log_context_reduction_TypeError
      ∧ (enhanced_generate_next_message approximate_estimate cfgC3 3 oraC3bad
          {} [] [] msgsC3).callInputs = []
      ∧ (enhanced_generate_next_message approximate_estimate cfgC3 3 oraC3bad
          {} [] [] msgsC3).retryUsed = false
      ∧ (enhanced_generate_next_message approximate_estimate cfgC3 3 oraC3bad
          {} [] [] msgsC3).metrics.operations_with_both = 0
      ∧ (enhanced_generate_next_message approximate_estimate cfgC3 3 oraC3bad
          {} [] [] msgsC3).reductionHistory.length = 1 :=
  ⟨by decide, by decide, rfl, by decide, rfl, rfl, by decide, by decide,
    by decide⟩

end Tau2
